import Mathlib

/-!
# Verification of the session-tracking core of the MernStack event-analytics repository

Shallow embedding of the two SessionLog persistence shapes and the operations
built on them:

* the *flat* shape (`backend/models/CursorLog.js`: top-level `sessionStart`,
  `sessionEnd`, `totalDuration`, `isActive`) together with the Express routes in
  `backend/routes/cursor.js`;
* the *nested* shape (`event-analytics-dashboard/backend/models/CursorLog.js`:
  `sessionMetrics`, `heatmapData`) together with the socket handlers in
  `event-analytics-dashboard/backend/sockets/cursorSocket.js` and the routes in
  `event-analytics-dashboard/backend/routes/cursorRoutes.js`.

Timestamps are modelled as integers (milliseconds since the epoch), screen
coordinates and depth percentages as rationals, Mongo ObjectIds for events as
naturals, and session identifiers as strings.  A Mongo collection is a list of
documents; `findOne` is `List.find?` (first match) and a mutation of the found
document followed by `save()` is `replaceFirst`.
-/

/-- JavaScript `Math.round`: round half towards positive infinity. -/
def jsRound (q : ℚ) : ℤ := ⌊q + 1/2⌋

/-- The last `n` elements of a list (JavaScript `Array.prototype.slice(-n)`). -/
def takeLast (n : ℕ) (l : List α) : List α := l.drop (l.length - n)

/-- Replace the first element satisfying `p` by its image under `f`; models
mutating the document returned by Mongoose `findOne` and then saving it. -/
def replaceFirst (p : α → Bool) (f : α → α) : List α → List α
  | [] => []
  | x :: xs => if p x then f x :: xs else x :: replaceFirst p f xs

/-! ## Flat SessionLog shape (`backend/models/CursorLog.js`, file `part_008`) -/

/-- One element of the flat model's `cursorData` array. -/
structure CursorPoint where
  x : ℚ
  y : ℚ
  timestamp : ℤ
  element : Option String
  action : String
deriving Repr, DecidableEq

/-- One element of the flat model's `pageViews` array. -/
structure PageView where
  page : String
  timestamp : ℤ
  duration : Option ℤ
deriving Repr, DecidableEq

/-- One element of the flat model's `interactions` array. -/
structure Interaction where
  type : String
  target : String
  timestamp : ℤ
deriving Repr, DecidableEq

/-- The flat CursorLog document (`backend/models/CursorLog.js`). -/
structure CursorLogFlat where
  eventId : ℕ
  userId : String
  sessionId : String
  userAgent : Option String
  ipAddress : Option String
  cursorData : List CursorPoint
  pageViews : List PageView
  interactions : List Interaction
  sessionStart : ℤ
  sessionEnd : Option ℤ
  totalDuration : Option ℤ
  isActive : Bool
  deviceInfo : Option String
  location : Option String
deriving Repr, DecidableEq

namespace CursorLogFlat

/-- The `sessionDuration` virtual: rounded seconds between start and end when
the session has ended, otherwise `totalDuration || 0`. -/
def sessionDuration (log : CursorLogFlat) : ℤ :=
  match log.sessionEnd with
  | some e => jsRound (((e - log.sessionStart : ℤ) : ℚ) / 1000)
  | none => log.totalDuration.getD 0

/-- `addCursorMovement(x, y, action, element)`: push a sample, then keep only
the last 1000 samples. -/
def addCursorMovement (now : ℤ) (x y : ℚ) (action : String)
    (element : Option String) (log : CursorLogFlat) : CursorLogFlat :=
  let cd := log.cursorData ++ [⟨x, y, now, element, action⟩]
  { log with cursorData := if cd.length > 1000 then takeLast 1000 cd else cd }

/-- `addInteraction(type, target, metadata)`. -/
def addInteraction (now : ℤ) (type target : String) (log : CursorLogFlat) :
    CursorLogFlat :=
  { log with interactions := log.interactions ++ [⟨type, target, now⟩] }

/-- `endSession()`: set `sessionEnd` and `isActive := false`, then compute
`totalDuration` from the `sessionDuration` virtual. -/
def endSession (now : ℤ) (log : CursorLogFlat) : CursorLogFlat :=
  let log1 := { log with sessionEnd := some now, isActive := false }
  { log1 with totalDuration := some log1.sessionDuration }

end CursorLogFlat

/-! ## Express routes on the flat shape (`backend/routes/cursor.js`) -/

/-- An event row, as far as the session-tracking core reads it. -/
structure EventRec where
  id : ℕ
  isPublic : Bool
deriving Repr, DecidableEq

/-- HTTP outcome of a cursor route. -/
inductive RouteResult (α : Type) where
  | created : α → RouteResult α
  | ok : α → RouteResult α
  | notFound : RouteResult α
  | forbidden : RouteResult α
deriving Repr, DecidableEq

/-- Request body of `POST /api/cursor/start-session`. -/
structure StartParams where
  eventId : ℕ
  userId : String
  sessionId : String
  userAgent : Option String
  ipAddress : Option String
  deviceInfo : Option String
  location : Option String
deriving Repr, DecidableEq

/-- `findOne({ eventId, sessionId })` predicate. -/
def matchesPair (eventId : ℕ) (sessionId : String) (s : CursorLogFlat) : Bool :=
  s.eventId == eventId && s.sessionId == sessionId

/-- `findOne({ eventId, sessionId, isActive: true })` predicate. -/
def matchesActivePair (eventId : ℕ) (sessionId : String) (s : CursorLogFlat) : Bool :=
  s.eventId == eventId && s.sessionId == sessionId && s.isActive

/-- The update applied to an existing session by `POST /start-session`:
reactivate, reset the timing fields, and overwrite the context snapshot
fields that were resent. -/
def resumeSession (now : ℤ) (p : StartParams) (s : CursorLogFlat) : CursorLogFlat :=
  { s with
    isActive := true
    sessionStart := now
    sessionEnd := none
    totalDuration := none
    userAgent := p.userAgent.orElse fun _ => s.userAgent
    ipAddress := p.ipAddress.orElse fun _ => s.ipAddress
    deviceInfo := p.deviceInfo.orElse fun _ => s.deviceInfo
    location := p.location.orElse fun _ => s.location }

/-- The document created by `new CursorLog({...})` in `POST /start-session`. -/
def newSessionFlat (now : ℤ) (p : StartParams) : CursorLogFlat :=
  { eventId := p.eventId, userId := p.userId, sessionId := p.sessionId,
    userAgent := p.userAgent, ipAddress := p.ipAddress,
    cursorData := [], pageViews := [], interactions := [],
    sessionStart := now, sessionEnd := none, totalDuration := none,
    isActive := true, deviceInfo := p.deviceInfo, location := p.location }

/-- `POST /api/cursor/start-session`: verify the event exists and is public,
then resume the existing row for `(eventId, sessionId)` or create a new one. -/
def startSessionRoute (events : List EventRec) (store : List CursorLogFlat)
    (now : ℤ) (p : StartParams) : RouteResult String × List CursorLogFlat :=
  match events.find? (fun e => e.id == p.eventId) with
  | none => (.notFound, store)
  | some e =>
    if !e.isPublic then (.forbidden, store)
    else
      match store.find? (matchesPair p.eventId p.sessionId) with
      | some _ =>
        (.ok "Session resumed successfully",
         replaceFirst (matchesPair p.eventId p.sessionId) (resumeSession now p) store)
      | none =>
        (.created "Session started successfully", store ++ [newSessionFlat now p])

/-- `POST /api/cursor/end-session`: find the *active* session for the pair;
404 when none, otherwise close it and answer with its `totalDuration`. -/
def endSessionRoute (store : List CursorLogFlat) (now : ℤ)
    (eventId : ℕ) (sessionId : String) :
    RouteResult (Option ℤ) × List CursorLogFlat :=
  match store.find? (matchesActivePair eventId sessionId) with
  | none => (.notFound, store)
  | some s =>
    (.ok (s.endSession now).totalDuration,
     replaceFirst (matchesActivePair eventId sessionId) (CursorLogFlat.endSession now) store)

/-! ## Nested SessionLog shape (`event-analytics-dashboard/backend/models/CursorLog.js`,
file `part_003`) -/

/-- One element of `heatmapData.clicks`. -/
structure HeatClick where
  x : ℚ
  y : ℚ
  page : String
  timestamp : ℤ
deriving Repr, DecidableEq

/-- One element of `heatmapData.hovers`. -/
structure HeatHover where
  x : ℚ
  y : ℚ
  duration : ℚ
  page : String
  timestamp : ℤ
deriving Repr, DecidableEq

/-- One element of `heatmapData.scrollDepth`. -/
structure ScrollEntry where
  page : String
  maxDepth : ℚ
  timestamp : ℤ
deriving Repr, DecidableEq

/-- One element of `sessionMetrics.pagesVisited`. -/
structure PageVisit where
  page : String
  timeSpent : ℚ
  visitedAt : ℤ
deriving Repr, DecidableEq

/-- One element of the nested model's `cursorData` array. -/
structure NestedPoint where
  x : ℚ
  y : ℚ
  timestamp : ℤ
  page : String
  element : Option String
  action : String
deriving Repr, DecidableEq

/-- The `sessionMetrics` subdocument. -/
structure SessionMetrics where
  startTime : ℤ
  endTime : Option ℤ
  duration : ℤ
  totalClicks : ℕ
  totalScrolls : ℕ
  pagesVisited : List PageVisit
  isActive : Bool
  lastActivity : ℤ
deriving Repr, DecidableEq

/-- The nested CursorLog document.  `heatClicks`, `heatHovers` and
`scrollDepth` are the three arrays of the `heatmapData` subdocument;
`createdAt` is the Mongoose timestamp used by the date-range filters. -/
structure CursorLogDoc where
  sessionId : String
  userId : Option String
  eventId : ℕ
  userAgent : Option String
  ipAddress : Option String
  location : Option String
  device : Option String
  cursorData : List NestedPoint
  sessionMetrics : SessionMetrics
  heatClicks : List HeatClick
  heatHovers : List HeatHover
  scrollDepth : List ScrollEntry
  isDeleted : Bool
  createdAt : ℤ
deriving Repr, DecidableEq

namespace CursorLogDoc

/-- `addCursorMovement(x, y, page, element, action)` of the nested model:
append the sample (no cap), refresh `lastActivity`, and update the click /
scroll counters and the click heatmap. -/
def addCursorMovement (now : ℤ) (x y : ℚ) (page : String)
    (element : Option String) (action : String) (doc : CursorLogDoc) :
    CursorLogDoc :=
  let doc := { doc with
    cursorData := doc.cursorData ++ [⟨x, y, now, page, element, action⟩],
    sessionMetrics := { doc.sessionMetrics with lastActivity := now } }
  let doc :=
    if action == "click" then
      { doc with
        sessionMetrics :=
          { doc.sessionMetrics with totalClicks := doc.sessionMetrics.totalClicks + 1 },
        heatClicks := doc.heatClicks ++ [⟨x, y, page, now⟩] }
    else doc
  if action == "scroll" then
    { doc with
      sessionMetrics :=
        { doc.sessionMetrics with totalScrolls := doc.sessionMetrics.totalScrolls + 1 } }
  else doc

/-- `addHoverData(x, y, duration, page)`. -/
def addHoverData (now : ℤ) (x y duration : ℚ) (page : String)
    (doc : CursorLogDoc) : CursorLogDoc :=
  { doc with heatHovers := doc.heatHovers ++ [⟨x, y, duration, page, now⟩] }

/-- The in-place update `updateScrollDepth` applies to the entry found for
the page: raise `maxDepth` (and refresh the timestamp) only when the new depth
is strictly greater. -/
def bumpDepth (now : ℤ) (depth : ℚ) (s : ScrollEntry) : ScrollEntry :=
  if depth > s.maxDepth then { s with maxDepth := depth, timestamp := now } else s

/-- `updateScrollDepth(page, depth)`: max-merge into the entry for `page`,
inserting a fresh entry when the page has none. -/
def updateScrollDepth (now : ℤ) (page : String) (depth : ℚ)
    (doc : CursorLogDoc) : CursorLogDoc :=
  if (doc.scrollDepth.find? (fun s => s.page == page)).isSome then
    { doc with scrollDepth :=
        replaceFirst (fun s => s.page == page) (bumpDepth now depth) doc.scrollDepth }
  else
    { doc with scrollDepth := doc.scrollDepth ++ [⟨page, depth, now⟩] }

/-- `endSession()` of the nested model: set `endTime`, clear `isActive`, and
store the floor of the elapsed seconds. -/
def endSession (now : ℤ) (doc : CursorLogDoc) : CursorLogDoc :=
  { doc with sessionMetrics := { doc.sessionMetrics with
      endTime := some now,
      isActive := false,
      duration := ⌊((now - doc.sessionMetrics.startTime : ℤ) : ℚ) / 1000⌋ } }

/-- `addPageVisit(page, timeSpent)`: accumulate time into the entry for
`page`, inserting a fresh entry when the page has none. -/
def addPageVisit (now : ℤ) (page : String) (timeSpent : ℚ)
    (doc : CursorLogDoc) : CursorLogDoc :=
  let addTime : PageVisit → PageVisit := fun p =>
    { p with timeSpent := p.timeSpent + timeSpent }
  let visited :=
    if (doc.sessionMetrics.pagesVisited.find? (fun p => p.page == page)).isSome then
      replaceFirst (fun p => p.page == page) addTime doc.sessionMetrics.pagesVisited
    else
      doc.sessionMetrics.pagesVisited ++ [⟨page, timeSpent, now⟩]
  { doc with sessionMetrics := { doc.sessionMetrics with pagesVisited := visited } }

end CursorLogDoc

/-- `findOne({ sessionId, eventId, 'sessionMetrics.isActive': true })`
predicate, shared by the socket handlers and `createOrUpdateSession`. -/
def activeDocPred (sid : String) (eid : ℕ) (d : CursorLogDoc) : Bool :=
  d.sessionId == sid && d.eventId == eid && d.sessionMetrics.isActive

/-- First active document for a `(sessionId, eventId)` pair, if any. -/
def findActiveDoc (sid : String) (eid : ℕ) (store : List CursorLogDoc) :
    Option CursorLogDoc :=
  store.find? (activeDocPred sid eid)

/-- The document created by `CursorLog.create({...})` in the `join-event`
handler and in `createOrUpdateSession`: empty collections, active metrics
started at `now`. -/
def newDoc (now : ℤ) (sid : String) (uid : Option String) (eid : ℕ)
    (ua ip loc dev : Option String) : CursorLogDoc :=
  { sessionId := sid, userId := uid, eventId := eid,
    userAgent := ua, ipAddress := ip, location := loc, device := dev,
    cursorData := [], heatClicks := [], heatHovers := [], scrollDepth := [],
    sessionMetrics :=
      { startTime := now, endTime := none, duration := 0,
        totalClicks := 0, totalScrolls := 0, pagesVisited := [],
        isActive := true, lastActivity := now },
    isDeleted := false, createdAt := now }

/-- Number of active documents a store holds for a `(sessionId, eventId)`
pair. -/
def activeDocCount (store : List CursorLogDoc) (sid : String) (eid : ℕ) : ℕ :=
  (store.filter (activeDocPred sid eid)).length

/-- `POST /api/cursor/session` (`createOrUpdateSession`): reuse the active
document for the pair (touching only `lastActivity`), or create one.
Returns the new store and the `startTime` reported to the client.
The route 400s when `sessionId`/`eventId` are missing; the embedding takes
them as required arguments, so only the happy path is modelled. -/
def createOrUpdateSession (now : ℤ) (sid : String) (uid : Option String)
    (eid : ℕ) (ua loc dev : Option String) (ip : Option String)
    (store : List CursorLogDoc) : List CursorLogDoc × ℤ :=
  match findActiveDoc sid eid store with
  | none => (store ++ [newDoc now sid uid eid ua ip loc dev], now)
  | some d =>
    (replaceFirst (activeDocPred sid eid)
      (fun d => { d with sessionMetrics := { d.sessionMetrics with lastActivity := now } })
      store,
     d.sessionMetrics.startTime)

/-! ## Socket layer (`event-analytics-dashboard/backend/sockets/cursorSocket.js`)

One `ConnEntry` merges the `activeSessions` map entry (`sessionData`) with the
socket.io room membership of the same connection (`socket.join`/`socket.leave`),
so that fan-out recipients can be computed.  `socket.id` doubles as the
persisted `sessionId`. -/

/-- In-memory state of one live connection. -/
structure ConnEntry where
  socketId : String
  userId : Option String
  userInfo : Option String
  connectedAt : ℤ
  currentEvent : Option ℕ
  lastActivity : ℤ
  /-- socket.io rooms the connection is currently joined to. -/
  rooms : List ℕ
deriving Repr, DecidableEq

/-- A server→client emission.  `toRoomExceptSender` is `socket.to(room).emit`
(everyone in the room but the sender), `toRoomAll` is `io.to(room).emit`
(everyone in the room), `toSelf` is `socket.emit`. -/
inductive Emission where
  | toRoomExceptSender (sender : String) (room : ℕ) (event : String) (sid : String)
  | toRoomAll (room : ℕ) (event : String) (sid : String)
  | toSelf (sender : String) (event : String)
deriving Repr, DecidableEq

/-- Socket ids an emission is delivered to, given the current connections. -/
def recipients (conns : List ConnEntry) : Emission → List String
  | .toRoomExceptSender sender room _ _ =>
    (conns.filter (fun c => c.rooms.contains room && c.socketId != sender)).map (·.socketId)
  | .toRoomAll room _ _ =>
    (conns.filter (fun c => c.rooms.contains room)).map (·.socketId)
  | .toSelf sender _ => [sender]

/-- `socket.join(room)`: socket.io room sets ignore duplicate joins. -/
def joinRoom (room : ℕ) (rooms : List ℕ) : List ℕ :=
  if rooms.contains room then rooms else rooms ++ [room]

/-- The `join-event` handler, acting on the handler's own `sessionData` entry
and the persisted store.  Returns the emissions in the order the code issues
them, the updated entry, and the updated store. -/
def joinEvent (now : ℤ) (eid : ℕ) (ua loc : Option String)
    (conn : ConnEntry) (store : List CursorLogDoc) :
    List Emission × ConnEntry × List CursorLogDoc :=
  let leaveStep : List Emission × ConnEntry :=
    match conn.currentEvent with
    | some prev =>
      ([.toRoomExceptSender conn.socketId prev "user-left" conn.socketId],
       { conn with rooms := conn.rooms.erase prev })
    | none => ([], conn)
  let conn := { leaveStep.2 with
    rooms := joinRoom eid leaveStep.2.rooms,
    currentEvent := some eid,
    lastActivity := now }
  let store :=
    match findActiveDoc conn.socketId eid store with
    | some _ => store
    | none => store ++ [newDoc now conn.socketId conn.userId eid ua none loc none]
  (leaveStep.1 ++
    [.toRoomExceptSender conn.socketId eid "user-joined" conn.socketId,
     .toSelf conn.socketId "active-users",
     .toSelf conn.socketId "joined-event"],
   conn, store)

/-- Combined server state the disconnect handler and the cleanup sweep act on. -/
structure SocketState where
  conns : List ConnEntry
  store : List CursorLogDoc
deriving Repr, DecidableEq

/-- `findOne({sessionId, eventId, 'sessionMetrics.isActive': true})` followed
by `endSession()` on the found document (`if (cursorLog) await
cursorLog.endSession()`). -/
def closeActiveDoc (now : ℤ) (sid : String) (eid : ℕ)
    (store : List CursorLogDoc) : List CursorLogDoc :=
  if (findActiveDoc sid eid store).isSome then
    replaceFirst (activeDocPred sid eid) (CursorLogDoc.endSession now) store
  else store

/-- The `disconnect` handler: notify the room (peers only), close the active
SessionLog for the connection's room, and drop the registry entry. -/
def disconnect (now : ℤ) (sid : String) (st : SocketState) :
    List Emission × SocketState :=
  let remaining := st.conns.filter (fun c => c.socketId != sid)
  match st.conns.find? (fun c => c.socketId == sid) with
  | none => ([], { st with conns := remaining })
  | some c =>
    match c.currentEvent with
    | some eid =>
      ([.toRoomExceptSender sid eid "user-left" sid],
       { conns := remaining, store := closeActiveDoc now sid eid st.store })
    | none => ([], { st with conns := remaining })

/-- The inactivity timeout of the cleanup sweep (5 minutes, in ms). -/
def staleThreshold : ℤ := 5 * 60 * 1000

/-- `now - session.lastActivity > inactiveThreshold`. -/
def isStale (now : ℤ) (c : ConnEntry) : Bool := now - c.lastActivity > staleThreshold

/-- Body of the cleanup loop for one registry entry: on staleness, notify the
whole room (`io.to`), close the active SessionLog, and drop the entry. -/
def sweepOne (now : ℤ) (c : ConnEntry) (st : SocketState) :
    List Emission × SocketState :=
  if isStale now c then
    match c.currentEvent with
    | some eid =>
      ([.toRoomAll eid "user-left" c.socketId],
       { conns := st.conns.filter (fun x => x.socketId != c.socketId),
         store := closeActiveDoc now c.socketId eid st.store })
    | none =>
      ([], { st with conns := st.conns.filter (fun x => x.socketId != c.socketId) })
  else ([], st)

/-- The cleanup loop over a list of registry entries. -/
def sweepList (now : ℤ) : List ConnEntry → SocketState → List Emission × SocketState
  | [], st => ([], st)
  | c :: cs, st =>
    let step := sweepOne now c st
    let rest := sweepList now cs step.2
    (step.1 ++ rest.1, rest.2)

/-- The periodic cleanup sweep (`setInterval`, every 60 s): iterate over the
entries of `activeSessions`. -/
def cleanupSweep (now : ℤ) (st : SocketState) : List Emission × SocketState :=
  sweepList now st.conns st

/-! ## Heatmap aggregation (`getHeatmapData`, file `part_003`, and the route in
`event-analytics-dashboard/backend/routes/cursorRoutes.js`) -/

/-- Optional `createdAt` range filter (`$gte` / `$lte`). -/
def inDateRange (startDate endDate : Option ℤ) (t : ℤ) : Bool :=
  (match startDate with | some s => decide (s ≤ t) | none => true) &&
  (match endDate with | some e => decide (t ≤ e) | none => true)

/-- The `$match` stage: `eventId`, `isDeleted: false`, optionally
`'heatmapData.clicks.page': page` (Mongo array element match: the document
has *some* click on that page), optionally the `createdAt` range. -/
def heatmapMatch (eid : ℕ) (page : Option String) (startDate endDate : Option ℤ)
    (d : CursorLogDoc) : Bool :=
  d.eventId == eid && !d.isDeleted &&
  (match page with
   | some p => d.heatClicks.any (fun c => c.page == p)
   | none => true) &&
  inDateRange startDate endDate d.createdAt

/-- The `$unwind: '$heatmapData.clicks'` stage applied after the match: every
click of every matching document. -/
def unwoundClicks (docs : List CursorLogDoc) (eid : ℕ) (page : Option String)
    (startDate endDate : Option ℤ) : List HeatClick :=
  ((docs.filter (heatmapMatch eid page startDate endDate)).map (·.heatClicks)).flatten

/-- The `$group` key: `floor(x / 10)`, `floor(y / 10)`, and the click's page.
The divisor 10 is hard-coded in the aggregation pipeline. -/
def bucketKey (c : HeatClick) : ℤ × ℤ × String := (⌊c.x / 10⌋, ⌊c.y / 10⌋, c.page)

/-- One `$group` output document. -/
structure HeatBucket where
  idx : ℤ
  idy : ℤ
  page : String
  count : ℕ
  avgX : ℚ
  avgY : ℚ
deriving Repr, DecidableEq

/-- Build the `$group` document for one key from the unwound click list. -/
def mkBucket (cs : List HeatClick) (k : ℤ × ℤ × String) : HeatBucket :=
  let sel := cs.filter (fun c => bucketKey c == k)
  { idx := k.1, idy := k.2.1, page := k.2.2, count := sel.length,
    avgX := (sel.map (·.x)).sum / (sel.length : ℚ),
    avgY := (sel.map (·.y)).sum / (sel.length : ℚ) }

/-- Descending-count order used by the final `$sort: { count: -1 }` stage. -/
def countGE (a b : HeatBucket) : Prop := b.count ≤ a.count

instance : DecidableRel countGE := fun a b => Nat.decLe b.count a.count

instance : IsTotal HeatBucket countGE := ⟨fun a b => le_total b.count a.count⟩

instance : IsTrans HeatBucket countGE := ⟨fun _ _ _ h1 h2 => le_trans h2 h1⟩

/-- `CursorLog.getHeatmapData(eventId, page, startDate, endDate)`: match,
unwind the clicks, group by the hard-coded 10-pixel grid key and page, and
sort by count descending. -/
def getHeatmapData (docs : List CursorLogDoc) (eid : ℕ) (page : Option String)
    (startDate endDate : Option ℤ) : List HeatBucket :=
  let cs := unwoundClicks docs eid page startDate endDate
  List.insertionSort countGE ((cs.map bucketKey).dedup.map (mkBucket cs))

/-- One element of the route's `processedData`. -/
structure HeatPoint where
  x : ℚ
  y : ℚ
  value : ℕ
  page : String
  gridX : ℤ
  gridY : ℤ
deriving Repr, DecidableEq

/-- `GET /api/cursor/heatmap/:eventId`: run the aggregation, then rescale the
group keys by the requested `resolution` (default 10).  The resolution is used
*only* here, never in the bucketing itself. -/
def getHeatmapRoute (docs : List CursorLogDoc) (eid : ℕ) (page : Option String)
    (startDate endDate : Option ℤ) (resolution : ℤ) : List HeatPoint :=
  (getHeatmapData docs eid page startDate endDate).map fun b =>
    { x := b.avgX, y := b.avgY, value := b.count, page := b.page,
      gridX := b.idx * resolution, gridY := b.idy * resolution }

/-- Modelled from the spec: the bucket the specification's words assign to a
click — `(floor(x/resolution), floor(y/resolution))` for the *requested*
resolution.  Used only to compare the spec's claim with the code. -/
def specBucketOfClick (resolution : ℚ) (c : HeatClick) : ℤ × ℤ :=
  (⌊c.x / resolution⌋, ⌊c.y / resolution⌋)

/-! ## Sequences of cursor-movement appends -/

/-- One cursor-movement request against the flat model. -/
structure MoveSample where
  now : ℤ
  x : ℚ
  y : ℚ
  action : String
  element : Option String
deriving Repr, DecidableEq

/-- The `cursorData` element a flat-model movement request appends. -/
def MoveSample.toPoint (m : MoveSample) : CursorPoint :=
  ⟨m.x, m.y, m.now, m.element, m.action⟩

/-- Apply a sequence of movement requests to a flat document. -/
def applyMoves (log : CursorLogFlat) (ms : List MoveSample) : CursorLogFlat :=
  ms.foldl (fun l m => l.addCursorMovement m.now m.x m.y m.action m.element) log

/-- One cursor-movement request against the nested model. -/
structure NestedSample where
  now : ℤ
  x : ℚ
  y : ℚ
  page : String
  element : Option String
  action : String
deriving Repr, DecidableEq

/-- Apply a sequence of movement requests to a nested document. -/
def applyNestedMoves (doc : CursorLogDoc) (ms : List NestedSample) : CursorLogDoc :=
  ms.foldl (fun d m => d.addCursorMovement m.now m.x m.y m.page m.element m.action) doc

/-! ## Derived counts and invariants -/

/-- Number of flat rows a store holds for an `(eventId, sessionId)` pair. -/
def pairCount (store : List CursorLogFlat) (eid : ℕ) (sid : String) : ℕ :=
  (store.filter (matchesPair eid sid)).length

/-- Number of *active* flat rows a store holds for a pair. -/
def activeCount (store : List CursorLogFlat) (eid : ℕ) (sid : String) : ℕ :=
  (store.filter (matchesActivePair eid sid)).length

/-- Stored maximum scroll depth recorded for a page, if any. -/
def depthOf (page : String) (doc : CursorLogDoc) : Option ℚ :=
  (doc.scrollDepth.find? (fun s => s.page == page)).map (·.maxDepth)

/-- Each page has at most one scroll-depth entry. -/
def scrollPagesNodup (doc : CursorLogDoc) : Prop :=
  (doc.scrollDepth.map (·.page)).Nodup

/-- The socket.io room list a well-formed connection entry may hold, from its
`currentEvent` field. -/
def roomsOfOpt : Option ℕ → List ℕ
  | none => []
  | some e => [e]

/-- A connection's socket.io membership mirrors its `currentEvent` field
(in particular it is in at most one room). -/
def connWellFormed (c : ConnEntry) : Prop := c.rooms = roomsOfOpt c.currentEvent

/-- Number of registry entries currently assigned to an event room. -/
def roomCount (conns : List ConnEntry) (eid : ℕ) : ℕ :=
  (conns.filter (fun c => c.currentEvent == some eid)).length

/-! ## Concrete inputs used by witnesses and counterexamples -/

/-- A public event with id 1. -/
def exEvents : List EventRec := [⟨1, true⟩]

/-- A start-session request for event 1, session "s". -/
def exParams : StartParams := ⟨1, "u", "s", none, none, none, none⟩

/-- A closed flat row for (1, "s") with non-empty collections. -/
def exClosedRow : CursorLogFlat :=
  { eventId := 1, userId := "u", sessionId := "s",
    userAgent := some "ua", ipAddress := none,
    cursorData := [⟨3, 4, 10, none, "move"⟩],
    pageViews := [⟨"home", 11, some 2⟩],
    interactions := [⟨"button_click", "btn", 12⟩],
    sessionStart := 0, sessionEnd := some 7000, totalDuration := some 7,
    isActive := false, deviceInfo := none, location := none }

/-- An active flat row for (1, "s") started at time 0. -/
def exActiveRow : CursorLogFlat :=
  { exClosedRow with
    sessionStart := 0
    sessionEnd := none
    totalDuration := none
    isActive := true }

/-- A nested document for event 1 whose only scroll entry is page "x" at
depth 30. -/
def exDoc30 : CursorLogDoc :=
  { newDoc 0 "s" none 1 none none none none with
    scrollDepth := [⟨"x", 30, 1⟩] }

/-- A nested document for event 1 with one click at (12, 18). -/
def exDocA : CursorLogDoc :=
  { newDoc 0 "s" none 1 none none none none with
    heatClicks := [⟨12, 18, "p", 0⟩] }

/-- A nested document for event 1 with the two clicks of the spec's worked
example, (12, 18) and (14, 19), both on page "p". -/
def exDocPair : CursorLogDoc :=
  { newDoc 0 "s" none 1 none none none none with
    heatClicks := [⟨12, 18, "p", 0⟩, ⟨14, 19, "p", 0⟩] }

/-- A nested document with two clicks at the same coordinates on two
different pages. -/
def exDocTwoPages : CursorLogDoc :=
  { newDoc 0 "s" none 1 none none none none with
    heatClicks := [⟨12, 18, "p1", 0⟩, ⟨12, 18, "p2", 0⟩] }

/-- A nested document with one click on page "a" and one far-away click on
page "b". -/
def exDocCross : CursorLogDoc :=
  { newDoc 0 "s" none 1 none none none none with
    heatClicks := [⟨5, 5, "a", 0⟩, ⟨205, 205, "b", 0⟩] }

/-- A freshly connected socket "c" that has not joined any room yet. -/
def exConnFresh : ConnEntry :=
  { socketId := "c", userId := none, userInfo := none, connectedAt := 0,
    currentEvent := none, lastActivity := 0, rooms := [] }

/-- A connection "a" currently in room 1. -/
def exConnA : ConnEntry :=
  { socketId := "a", userId := none, userInfo := none, connectedAt := 0,
    currentEvent := some 1, lastActivity := 0, rooms := [1] }

/-- A peer connection "b" also in room 1. -/
def exConnB : ConnEntry :=
  { socketId := "b", userId := none, userInfo := none, connectedAt := 0,
    currentEvent := some 1, lastActivity := 400000, rooms := [1] }

/-- Socket-server state in which "a" went silent at time 0 while "b" stayed
active: at time 400000 entry "a" is past the 5-minute staleness threshold. -/
def exStaleState : SocketState :=
  { conns := [exConnA, exConnB],
    store := [newDoc 0 "a" none 1 none none none none] }

/-! ## Helper lemmas about `replaceFirst`, `takeLast` and `find?` -/

theorem replaceFirst_length (p : α → Bool) (f : α → α) (l : List α) :
    (replaceFirst p f l).length = l.length := by
  induction l with
  | nil => rfl
  | cons x xs ih =>
    simp only [replaceFirst]
    split <;> simp [ih]

theorem replaceFirst_filter_length (p q : α → Bool) (f : α → α)
    (h : ∀ a, q (f a) = q a) (l : List α) :
    ((replaceFirst p f l).filter q).length = (l.filter q).length := by
  induction l with
  | nil => rfl
  | cons x xs ih =>
    simp only [replaceFirst]
    split
    · simp only [List.filter, h x]
      cases hqx : q x <;> simp [hqx]
    · simp only [List.filter]
      cases hqx : q x <;> simp [hqx, ih]

theorem replaceFirst_map (p : α → Bool) (f : α → α) (g : α → β)
    (h : ∀ a, g (f a) = g a) (l : List α) :
    (replaceFirst p f l).map g = l.map g := by
  induction l with
  | nil => rfl
  | cons x xs ih =>
    simp only [replaceFirst]
    split <;> simp [h x, ih]

theorem find?_replaceFirst (p : α → Bool) (f : α → α)
    (h : ∀ a, p (f a) = p a) (l : List α) :
    (replaceFirst p f l).find? p = (l.find? p).map f := by
  induction l with
  | nil => rfl
  | cons x xs ih =>
    simp only [replaceFirst]
    by_cases hx : p x
    · simp [hx, List.find?, h x]
    · simp only [if_neg hx, List.find?]
      rw [Bool.of_not_eq_true hx]
      exact ih

theorem find?_replaceFirst_other (p q : α → Bool) (f : α → α)
    (h : ∀ a, p a = true → q a = false) (hf : ∀ a, q (f a) = q a) (l : List α) :
    (replaceFirst p f l).find? q = l.find? q := by
  induction l with
  | nil => rfl
  | cons x xs ih =>
    simp only [replaceFirst]
    by_cases hx : p x
    · simp [if_pos hx, List.find?, hf x, h x hx]
    · simp only [if_neg hx, List.find?]
      cases hqx : q x <;> simp [hqx, ih]

theorem find?_replaceFirst_none (p : α → Bool) (f : α → α)
    (h : ∀ a, p (f a) = false) (l : List α)
    (hcount : (l.filter p).length ≤ 1) :
    (replaceFirst p f l).find? p = none := by
  induction l with
  | nil => rfl
  | cons x xs ih =>
    simp only [replaceFirst]
    by_cases hx : p x
    · have hxs : xs.filter p = [] := by
        rw [List.filter_cons_of_pos hx] at hcount
        simp only [List.length_cons] at hcount
        exact List.length_eq_zero.mp (by omega)
      simp only [if_pos hx, List.find?, h x]
      rw [List.find?_eq_none]
      intro a ha
      have := List.filter_eq_nil_iff.mp hxs a ha
      simp [this]
    · simp only [if_neg hx, List.find?]
      rw [Bool.of_not_eq_true hx]
      apply ih
      simpa [List.filter, hx] using hcount

theorem find?_append_of_none (p : α → Bool) (l₁ l₂ : List α)
    (h : ∀ x ∈ l₁, p x = false) : (l₁ ++ l₂).find? p = l₂.find? p := by
  induction l₁ with
  | nil => rfl
  | cons a as ih =>
    simp only [List.cons_append, List.find?]
    rw [h a (by simp)]
    exact ih (fun x hx => h x (by simp [hx]))

theorem filter_length_le_of_imp (p q : α → Bool) (l : List α)
    (h : ∀ a, p a = true → q a = true) :
    (l.filter p).length ≤ (l.filter q).length := by
  induction l with
  | nil => exact le_refl _
  | cons x xs ih =>
    by_cases hp : p x
    · rw [List.filter_cons_of_pos hp, List.filter_cons_of_pos (h x hp)]
      simpa using ih
    · rw [List.filter_cons_of_neg hp]
      by_cases hq : q x
      · rw [List.filter_cons_of_pos hq]
        simp only [List.length_cons]
        omega
      · rw [List.filter_cons_of_neg hq]
        exact ih

theorem takeLast_of_length_le {n : ℕ} {l : List α} (h : l.length ≤ n) :
    takeLast n l = l := by
  simp [takeLast, Nat.sub_eq_zero_of_le h]

theorem takeLast_length_le (n : ℕ) (l : List α) : (takeLast n l).length ≤ n := by
  simp only [takeLast, List.length_drop]
  omega

theorem takeLast_append_of_le {n : ℕ} (p t : List α) (h : n ≤ t.length) :
    takeLast n (p ++ t) = takeLast n t := by
  simp only [takeLast, List.length_append]
  have heq : p.length + t.length - n = p.length + (t.length - n) := by omega
  rw [heq, List.drop_append]

theorem takeLast_takeLast_append (n : ℕ) (l m : List α) :
    takeLast n (takeLast n l ++ m) = takeLast n (l ++ m) := by
  rcases le_or_lt l.length n with h | h
  · rw [takeLast_of_length_le h]
  · have hlen : (l.drop (l.length - n)).length = n := by
      simp only [List.length_drop]; omega
    have step : takeLast n (l ++ m) = takeLast n (l.drop (l.length - n) ++ m) := by
      conv_lhs => rw [← List.take_append_drop (l.length - n) l, List.append_assoc]
      exact takeLast_append_of_le _ _ (by rw [List.length_append, hlen]; omega)
    rw [step]
    rfl

/-! ## Claim C9: resuming a session resets timing, preserves collections -/

/-- Claim C9: when `POST /start-session` finds an existing row for the
`(eventId, sessionId)` pair (active or closed — the lookup does not filter on
`isActive`), it resumes that row via `resumeSession`, which sets
`sessionStart` to the current time, clears `sessionEnd` and `totalDuration`,
and leaves `cursorData`, `interactions` and `pageViews` untouched. -/
theorem start_session_resume_resets_timing
    (events : List EventRec) (store : List CursorLogFlat) (now : ℤ)
    (p : StartParams) (e : EventRec) (s : CursorLogFlat)
    (hev : events.find? (fun e => e.id == p.eventId) = some e)
    (hpub : e.isPublic = true)
    (hfind : store.find? (matchesPair p.eventId p.sessionId) = some s) :
    startSessionRoute events store now p =
      (.ok "Session resumed successfully",
       replaceFirst (matchesPair p.eventId p.sessionId) (resumeSession now p) store) ∧
    ∀ r : CursorLogFlat,
      (resumeSession now p r).sessionStart = now ∧
      (resumeSession now p r).sessionEnd = none ∧
      (resumeSession now p r).totalDuration = none ∧
      (resumeSession now p r).isActive = true ∧
      (resumeSession now p r).cursorData = r.cursorData ∧
      (resumeSession now p r).interactions = r.interactions ∧
      (resumeSession now p r).pageViews = r.pageViews := by
  refine ⟨?_, fun r => ⟨rfl, rfl, rfl, rfl, rfl, rfl, rfl⟩⟩
  simp [startSessionRoute, hev, hpub, hfind]

/-- Witness for C9: resuming the concrete closed row for (1, "s"). -/
theorem start_session_resume_resets_timing_witness :
    exEvents.find? (fun e => e.id == exParams.eventId) = some ⟨1, true⟩ ∧
    [exClosedRow].find? (matchesPair exParams.eventId exParams.sessionId) =
      some exClosedRow ∧
    startSessionRoute exEvents [exClosedRow] 50 exParams =
      (.ok "Session resumed successfully",
       replaceFirst (matchesPair exParams.eventId exParams.sessionId)
         (resumeSession 50 exParams) [exClosedRow]) ∧
    (resumeSession 50 exParams exClosedRow).cursorData = exClosedRow.cursorData :=
  ⟨by decide, by decide,
   (start_session_resume_resets_timing exEvents [exClosedRow] 50 exParams
      ⟨1, true⟩ exClosedRow (by decide) (by decide) (by decide)).1,
   ((start_session_resume_resets_timing exEvents [exClosedRow] 50 exParams
      ⟨1, true⟩ exClosedRow (by decide) (by decide) (by decide)).2 exClosedRow).2.2.2.2.1⟩

/-! ## Claim C5: the cursor-sample buffer cap -/

theorem addCursorMovement_cursorData (now : ℤ) (x y : ℚ) (action : String)
    (element : Option String) (log : CursorLogFlat) :
    (log.addCursorMovement now x y action element).cursorData =
      takeLast 1000 (log.cursorData ++ [⟨x, y, now, element, action⟩]) := by
  simp only [CursorLogFlat.addCursorMovement]
  split
  · rfl
  · next hgt => exact (takeLast_of_length_le (by omega)).symm

theorem applyMoves_cursorData (ms : List MoveSample) (log : CursorLogFlat)
    (h : log.cursorData.length ≤ 1000) :
    (applyMoves log ms).cursorData =
      takeLast 1000 (log.cursorData ++ ms.map MoveSample.toPoint) := by
  induction ms generalizing log with
  | nil =>
    simp only [applyMoves, List.foldl_nil, List.map_nil, List.append_nil]
    exact (takeLast_of_length_le h).symm
  | cons m ms ih =>
    have h' : (log.addCursorMovement m.now m.x m.y m.action m.element).cursorData.length
        ≤ 1000 := by
      rw [addCursorMovement_cursorData]
      exact takeLast_length_le _ _
    calc (applyMoves log (m :: ms)).cursorData
        = (applyMoves (log.addCursorMovement m.now m.x m.y m.action m.element) ms).cursorData := rfl
      _ = takeLast 1000
            ((log.addCursorMovement m.now m.x m.y m.action m.element).cursorData
              ++ ms.map MoveSample.toPoint) := ih _ h'
      _ = takeLast 1000 (takeLast 1000 (log.cursorData ++ [m.toPoint])
              ++ ms.map MoveSample.toPoint) := by rw [addCursorMovement_cursorData]; rfl
      _ = takeLast 1000 ((log.cursorData ++ [m.toPoint]) ++ ms.map MoveSample.toPoint) :=
          takeLast_takeLast_append _ _ _
      _ = takeLast 1000 (log.cursorData ++ (m :: ms).map MoveSample.toPoint) := by
          rw [List.append_assoc]; rfl

/-- Claim C5 (amended): in the *flat* model, after any sequence of
`addCursorMovement` appends starting from a buffer within the cap, the
`cursorData` buffer never exceeds 1000 samples and holds exactly the 1000
most recently appended ones.  (The nested model has no such cap — see the
counterexample.) -/
theorem cursorData_bounded_flat (log : CursorLogFlat) (ms : List MoveSample)
    (h : log.cursorData.length ≤ 1000) :
    (applyMoves log ms).cursorData.length ≤ 1000 ∧
    (applyMoves log ms).cursorData =
      takeLast 1000 (log.cursorData ++ ms.map MoveSample.toPoint) := by
  have hc := applyMoves_cursorData ms log h
  exact ⟨by rw [hc]; exact takeLast_length_le _ _, hc⟩

/-- Witness for C5: one append to a freshly created flat session. -/
theorem cursorData_bounded_flat_witness :
    (newSessionFlat 0 exParams).cursorData.length ≤ 1000 ∧
    (applyMoves (newSessionFlat 0 exParams) [⟨5, 1, 2, "move", none⟩]).cursorData.length ≤ 1000 ∧
    (applyMoves (newSessionFlat 0 exParams) [⟨5, 1, 2, "move", none⟩]).cursorData =
      takeLast 1000 ((newSessionFlat 0 exParams).cursorData ++
        [MoveSample.toPoint ⟨5, 1, 2, "move", none⟩]) :=
  ⟨by decide,
   (cursorData_bounded_flat (newSessionFlat 0 exParams) [⟨5, 1, 2, "move", none⟩] (by decide)).1,
   (cursorData_bounded_flat (newSessionFlat 0 exParams) [⟨5, 1, 2, "move", none⟩] (by decide)).2⟩

theorem addCursorMovement_doc_cursorData (now : ℤ) (x y : ℚ) (page : String)
    (element : Option String) (action : String) (doc : CursorLogDoc) :
    (doc.addCursorMovement now x y page element action).cursorData =
      doc.cursorData ++ [⟨x, y, now, page, element, action⟩] := by
  simp only [CursorLogDoc.addCursorMovement]
  split <;> split <;> rfl

theorem applyNestedMoves_length (ms : List NestedSample) (doc : CursorLogDoc) :
    (applyNestedMoves doc ms).cursorData.length = doc.cursorData.length + ms.length := by
  induction ms generalizing doc with
  | nil => simp [applyNestedMoves]
  | cons m ms ih =>
    calc (applyNestedMoves doc (m :: ms)).cursorData.length
        = (applyNestedMoves (doc.addCursorMovement m.now m.x m.y m.page m.element m.action) ms).cursorData.length := rfl
      _ = (doc.addCursorMovement m.now m.x m.y m.page m.element m.action).cursorData.length + ms.length := ih _
      _ = doc.cursorData.length + (m :: ms).length := by
          rw [addCursorMovement_doc_cursorData]
          simp only [List.length_append, List.length_cons, List.length_nil]
          omega

/-- Counterexample for C5 as stated: in the *nested* model
(`event-analytics-dashboard/backend/models/CursorLog.js`), `addCursorMovement`
never truncates, so 1001 appends to a fresh SessionLog leave a `cursorData`
buffer of 1001 samples — the advertised 1000-sample cap is violated. -/
theorem cursorData_cap_counterexample :
    (applyNestedMoves (newDoc 0 "s" none 1 none none none none)
        (List.replicate 1001 ⟨0, 1, 2, "p", none, "move"⟩)).cursorData.length = 1001 ∧
    1000 < 1001 := by
  constructor
  · rw [applyNestedMoves_length, List.length_replicate]
    rfl
  · omega

/-! ## Claim C6: scroll depth is a per-page max-merge -/

theorem find?_append_single (p : α → Bool) (l : List α) (x : α)
    (h : p x = false) : (l ++ [x]).find? p = l.find? p := by
  induction l with
  | nil => simp [List.find?, h]
  | cons a as ih =>
    simp only [List.cons_append, List.find?]
    cases ha : p a
    · exact ih
    · rfl

theorem bumpDepth_page (now : ℤ) (depth : ℚ) (s : ScrollEntry) :
    (CursorLogDoc.bumpDepth now depth s).page = s.page := by
  unfold CursorLogDoc.bumpDepth
  split <;> rfl

theorem bumpDepth_maxDepth (now : ℤ) (depth : ℚ) (s : ScrollEntry) :
    (CursorLogDoc.bumpDepth now depth s).maxDepth = max s.maxDepth depth := by
  unfold CursorLogDoc.bumpDepth
  split
  · next hgt => exact (max_eq_right hgt.le).symm
  · next hle => exact (max_eq_left (not_lt.mp hle)).symm

theorem depthOf_set (doc : CursorLogDoc) (l : List ScrollEntry) (page : String) :
    depthOf page { doc with scrollDepth := l } =
      (l.find? (fun s => s.page == page)).map (·.maxDepth) := rfl

theorem scrollPagesNodup_set (doc : CursorLogDoc) (l : List ScrollEntry) :
    scrollPagesNodup { doc with scrollDepth := l } ↔ (l.map (·.page)).Nodup :=
  Iff.rfl

/-- Claim C6: `updateScrollDepth` is a per-page max-merge: the stored depth
for the page becomes `max old new` (so a lower reading leaves the maximum
unchanged), a page with no entry gets one, entries of other pages are
untouched, no duplicate page entries are introduced, and updating an
existing page's entry does not grow the list. -/
theorem scrollDepth_max_merge (doc : CursorLogDoc) (page : String)
    (depth : ℚ) (now : ℤ) :
    (∀ m, depthOf page doc = some m →
      depthOf page (doc.updateScrollDepth now page depth) = some (max m depth)) ∧
    (∀ m, depthOf page doc = some m → depth ≤ m →
      depthOf page (doc.updateScrollDepth now page depth) = some m) ∧
    (depthOf page doc = none →
      depthOf page (doc.updateScrollDepth now page depth) = some depth) ∧
    (scrollPagesNodup doc → scrollPagesNodup (doc.updateScrollDepth now page depth)) ∧
    (∀ q, q ≠ page →
      depthOf q (doc.updateScrollDepth now page depth) = depthOf q doc) ∧
    ((doc.scrollDepth.find? (fun s => s.page == page)).isSome →
      (doc.updateScrollDepth now page depth).scrollDepth.length =
        doc.scrollDepth.length) := by
  have hpres : ∀ s : ScrollEntry,
      ((CursorLogDoc.bumpDepth now depth s).page == page) = (s.page == page) := by
    intro s; rw [bumpDepth_page]
  have hmax : ∀ m, depthOf page doc = some m →
      depthOf page (doc.updateScrollDepth now page depth) = some (max m depth) := by
    intro m hm
    obtain ⟨e, he, hme⟩ := Option.map_eq_some'.mp hm
    unfold CursorLogDoc.updateScrollDepth
    rw [if_pos (by rw [he]; rfl), depthOf_set,
      find?_replaceFirst _ _ hpres, he]
    simp only [Option.map_some']
    rw [bumpDepth_maxDepth, hme]
  refine ⟨hmax, ?_, ?_, ?_, ?_, ?_⟩
  · intro m hm hle
    rw [hmax m hm, max_eq_left hle]
  · intro hnone
    have hnone' : doc.scrollDepth.find? (fun s => s.page == page) = none :=
      Option.map_eq_none'.mp hnone
    unfold CursorLogDoc.updateScrollDepth
    rw [if_neg (by rw [hnone']; simp), depthOf_set,
      find?_append_of_none _ _ _ (fun x hx => by
        have := List.find?_eq_none.mp hnone' x hx
        simpa using this)]
    simp [List.find?]
  · intro hnd
    unfold CursorLogDoc.updateScrollDepth
    split
    · rw [scrollPagesNodup_set,
        replaceFirst_map _ _ _ (fun s => bumpDepth_page now depth s)]
      exact hnd
    · next hno =>
      rw [scrollPagesNodup_set, List.map_append]
      have hnone' : doc.scrollDepth.find? (fun s => s.page == page) = none := by
        cases hfind : doc.scrollDepth.find? (fun s => s.page == page) with
        | none => rfl
        | some v => rw [hfind] at hno; exact absurd rfl hno
      have hnotin : ∀ s ∈ doc.scrollDepth, ¬s.page = page := by
        intro s hs
        have := List.find?_eq_none.mp hnone' s hs
        simpa using this
      simpa [List.nodup_append] using ⟨hnd, hnotin⟩
  · intro q hq
    unfold CursorLogDoc.updateScrollDepth
    split
    · rw [depthOf_set,
        find?_replaceFirst_other (fun s => s.page == page) (fun s => s.page == q)
          (CursorLogDoc.bumpDepth now depth)
          (fun a ha => by
            have hap : a.page = page := by simpa using ha
            simp [hap, hq.symm])
          (fun a => by simp [bumpDepth_page])]
      rfl
    · rw [depthOf_set, find?_append_single _ _ _ (by simp [hq.symm])]
      rfl
  · intro hsome
    unfold CursorLogDoc.updateScrollDepth
    rw [if_pos hsome]
    exact replaceFirst_length _ _ _

/-- Witness for C6: recording depth 30 then 20 for page "x" leaves the
stored maximum at 30 (the spec's worked example). -/
theorem scrollDepth_max_merge_witness :
    depthOf "x" exDoc30 = some 30 ∧
    depthOf "x" (exDoc30.updateScrollDepth 2 "x" 20) = some (max 30 20) ∧
    max (30 : ℚ) 20 = 30 :=
  ⟨by decide, (scrollDepth_max_merge exDoc30 "x" 20 2).1 30 (by decide), by decide⟩

/-! ## Claim C2: end-session is *not* idempotent -/

theorem endSession_not_active (now : ℤ) (log : CursorLogFlat)
    (eid : ℕ) (sid : String) :
    matchesActivePair eid sid (log.endSession now) = false := by
  simp [matchesActivePair, CursorLogFlat.endSession]

/-- Counterexample for C2: ending the active session (1, "s") at t = 5000
succeeds (status `ok`, duration reported), but repeating the call afterwards
returns 404 "Active session not found" — it neither succeeds nor yields any
duration the second time. -/
theorem end_session_second_call_fails :
    (endSessionRoute [exActiveRow] 5000 1 "s").1 =
      .ok ((exActiveRow.endSession 5000).totalDuration) ∧
    (endSessionRoute (endSessionRoute [exActiveRow] 5000 1 "s").2 9000 1 "s").1 =
      .notFound :=
  ⟨rfl, rfl⟩

/-- Claim C2 (amended): the first end-session call on an active session
closes it and answers with the computed duration; once the pair has no
active row — in particular immediately after a successful end-session —
any further call answers 404 `notFound` and leaves the store unchanged,
rather than succeeding with the same duration. -/
theorem end_session_first_closes_then_404
    (store : List CursorLogFlat) (now later : ℤ) (eid : ℕ) (sid : String) :
    (store.find? (matchesActivePair eid sid) = none →
      endSessionRoute store now eid sid = (.notFound, store)) ∧
    (∀ s, store.find? (matchesActivePair eid sid) = some s →
      activeCount store eid sid ≤ 1 →
      (endSessionRoute store now eid sid).1 = .ok ((s.endSession now).totalDuration) ∧
      endSessionRoute (endSessionRoute store now eid sid).2 later eid sid =
        (.notFound, (endSessionRoute store now eid sid).2)) := by
  constructor
  · intro hnone
    simp [endSessionRoute, hnone]
  · intro s hs hcount
    have hroute : endSessionRoute store now eid sid =
        (.ok ((s.endSession now).totalDuration),
         replaceFirst (matchesActivePair eid sid) (CursorLogFlat.endSession now) store) := by
      simp [endSessionRoute, hs]
    have hclosed : (replaceFirst (matchesActivePair eid sid)
        (CursorLogFlat.endSession now) store).find? (matchesActivePair eid sid) = none :=
      find?_replaceFirst_none _ _ (fun a => endSession_not_active now a eid sid) _ hcount
    refine ⟨by rw [hroute], ?_⟩
    rw [hroute]
    simp [endSessionRoute, hclosed]

/-- Witness for C2 (amended): the concrete two-call run on the active row. -/
theorem end_session_first_closes_then_404_witness :
    [exActiveRow].find? (matchesActivePair 1 "s") = some exActiveRow ∧
    activeCount [exActiveRow] 1 "s" ≤ 1 ∧
    (endSessionRoute [exActiveRow] 5000 1 "s").1 =
      .ok ((exActiveRow.endSession 5000).totalDuration) ∧
    endSessionRoute (endSessionRoute [exActiveRow] 5000 1 "s").2 9000 1 "s" =
      (.notFound, (endSessionRoute [exActiveRow] 5000 1 "s").2) :=
  ⟨by decide, by decide,
   ((end_session_first_closes_then_404 [exActiveRow] 5000 9000 1 "s").2 exActiveRow
      (by decide) (by decide)).1,
   ((end_session_first_closes_then_404 [exActiveRow] 5000 9000 1 "s").2 exActiveRow
      (by decide) (by decide)).2⟩

/-! ## Claim C3: event-existence validation before creating a SessionLog -/

/-- Counterexample for C3: with *no* events in existence, the socket
`join-event` handler happily creates a SessionLog for eventId 5 and reports
success (it never consults the Event collection), and so does
`POST /api/cursor/session` — neither fails with NotFound. -/
theorem join_event_creates_without_event_check :
    (joinEvent 100 5 none none exConnFresh []).2.2.length = 1 ∧
    (joinEvent 100 5 none none exConnFresh []).1 =
      [.toRoomExceptSender "c" 5 "user-joined" "c",
       .toSelf "c" "active-users", .toSelf "c" "joined-event"] ∧
    (createOrUpdateSession 100 "s" none 5 none none none none []).1.length = 1 := by
  refine ⟨rfl, rfl, rfl⟩

/-- Claim C3 (amended): only the HTTP `start-session` route validates the
referenced event (404 when missing, 403 when not public, in both cases
creating nothing); the socket `join-event` handler and
`POST /api/cursor/session` create a SessionLog without consulting any event
store whenever the pair has no active document. -/
theorem event_validation_only_in_start_route
    (events : List EventRec) (store : List CursorLogFlat) (now : ℤ)
    (p : StartParams) :
    (events.find? (fun e => e.id == p.eventId) = none →
      startSessionRoute events store now p = (.notFound, store)) ∧
    (∀ e, events.find? (fun e => e.id == p.eventId) = some e → e.isPublic = false →
      startSessionRoute events store now p = (.forbidden, store)) ∧
    (∀ (sid : String) (uid : Option String) (eid : ℕ)
       (ua loc dev ip : Option String) (docStore : List CursorLogDoc),
      findActiveDoc sid eid docStore = none →
      (createOrUpdateSession now sid uid eid ua loc dev ip docStore).1 =
        docStore ++ [newDoc now sid uid eid ua ip loc dev]) ∧
    (∀ (eid : ℕ) (ua loc : Option String) (conn : ConnEntry)
       (docStore : List CursorLogDoc),
      findActiveDoc conn.socketId eid docStore = none →
      (joinEvent now eid ua loc conn docStore).2.2 =
        docStore ++ [newDoc now conn.socketId conn.userId eid ua none loc none]) := by
  refine ⟨?_, ?_, ?_, ?_⟩
  · intro h
    simp [startSessionRoute, h]
  · intro e he hpub
    simp [startSessionRoute, he, hpub]
  · intro sid uid eid ua loc dev ip docStore h
    simp [createOrUpdateSession, h]
  · intro eid ua loc conn docStore h
    rcases hc : conn.currentEvent with _ | prev <;>
      simp [joinEvent, hc, h]

/-- Witness for C3 (amended): concrete instantiations of all four parts. -/
theorem event_validation_only_in_start_route_witness :
    (([] : List EventRec).find? (fun e => e.id == exParams.eventId) = none) ∧
    startSessionRoute [] [] 7 exParams = (.notFound, []) ∧
    findActiveDoc "s" 5 [] = none ∧
    (createOrUpdateSession 7 "s" none 5 none none none none []).1 =
      [] ++ [newDoc 7 "s" none 5 none none none none] ∧
    (joinEvent 7 5 none none exConnFresh []).2.2 =
      [] ++ [newDoc 7 exConnFresh.socketId exConnFresh.userId 5 none none none none] :=
  ⟨by decide,
   (event_validation_only_in_start_route [] [] 7 exParams).1 (by decide),
   by decide,
   (event_validation_only_in_start_route [] [] 7 exParams).2.2.1
     "s" none 5 none none none none [] (by decide),
   (event_validation_only_in_start_route [] [] 7 exParams).2.2.2
     5 none none exConnFresh [] (by decide)⟩

/-! ## Claim C1: at most one active SessionLog per pair; start resumes -/

theorem filter_append_single (q : α → Bool) (l : List α) (x : α) :
    ((l ++ [x]).filter q).length =
      (l.filter q).length + (if q x then 1 else 0) := by
  rw [List.filter_append]
  cases hx : q x <;> simp [List.filter, hx]

theorem resumeSession_pair (now : ℤ) (p : StartParams) (e : ℕ) (s' : String)
    (a : CursorLogFlat) :
    matchesPair e s' (resumeSession now p a) = matchesPair e s' a := by
  simp [matchesPair, resumeSession]

theorem pairCount_eq_zero_of_find?_none (store : List CursorLogFlat)
    (e : ℕ) (s : String)
    (h : store.find? (matchesPair e s) = none) : pairCount store e s = 0 := by
  unfold pairCount
  rw [List.length_eq_zero, List.filter_eq_nil_iff]
  intro a ha
  simp [List.find?_eq_none.mp h a ha]

theorem activeDocCount_eq_zero_of_none (store : List CursorLogDoc)
    (sid : String) (eid : ℕ)
    (h : findActiveDoc sid eid store = none) : activeDocCount store sid eid = 0 := by
  unfold activeDocCount
  rw [List.length_eq_zero, List.filter_eq_nil_iff]
  intro a ha
  simp [List.find?_eq_none.mp h a ha]

theorem touch_preserves_activePred (now : ℤ)
    (s' : String) (e' : ℕ) (d : CursorLogDoc) :
    activeDocPred s' e'
      { d with sessionMetrics := { d.sessionMetrics with lastActivity := now } } =
    activeDocPred s' e' d := by
  simp [activeDocPred]

theorem newDoc_activePred (now : ℤ) (sid : String) (uid : Option String)
    (eid : ℕ) (ua ip loc dev : Option String) (s' : String) (e' : ℕ) :
    activeDocPred s' e' (newDoc now sid uid eid ua ip loc dev) =
      (sid == s' && eid == e') := by
  simp [activeDocPred, newDoc]

theorem createOrUpdate_activeDocCount (now : ℤ) (sid : String)
    (uid : Option String) (eid : ℕ) (ua loc dev ip : Option String)
    (store : List CursorLogDoc)
    (h : ∀ s' e', activeDocCount store s' e' ≤ 1) :
    ∀ s' e',
      activeDocCount (createOrUpdateSession now sid uid eid ua loc dev ip store).1 s' e' ≤ 1 := by
  intro s' e'
  unfold createOrUpdateSession
  cases hfind : findActiveDoc sid eid store with
  | none =>
    simp only [activeDocCount, filter_append_single]
    rw [newDoc_activePred]
    by_cases hmatch : sid == s' && eid == e'
    · have hss : sid = s' := by
        have := hmatch
        simp only [Bool.and_eq_true, beq_iff_eq] at this
        exact this.1
      have hee : eid = e' := by
        have := hmatch
        simp only [Bool.and_eq_true, beq_iff_eq] at this
        exact this.2
      subst hss; subst hee
      have h0 := activeDocCount_eq_zero_of_none store sid eid hfind
      unfold activeDocCount at h0
      rw [h0, hmatch]
      simp
    · rw [Bool.eq_false_iff.mpr hmatch]
      simpa [activeDocCount] using h s' e'
  | some d =>
    simp only [activeDocCount]
    rw [replaceFirst_filter_length _ _ _
      (fun a => touch_preserves_activePred now s' e' a)]
    exact h s' e'

theorem joinEvent_store (now : ℤ) (eid : ℕ) (ua loc : Option String)
    (conn : ConnEntry) (store : List CursorLogDoc) :
    (joinEvent now eid ua loc conn store).2.2 =
      match findActiveDoc conn.socketId eid store with
      | some _ => store
      | none => store ++ [newDoc now conn.socketId conn.userId eid ua none loc none] := by
  rcases hc : conn.currentEvent with _ | prev <;>
    cases hfind : findActiveDoc conn.socketId eid store <;>
      simp [joinEvent, hc, hfind]

theorem joinEvent_activeDocCount (now : ℤ) (eid : ℕ) (ua loc : Option String)
    (conn : ConnEntry) (store : List CursorLogDoc)
    (h : ∀ s' e', activeDocCount store s' e' ≤ 1) :
    ∀ s' e', activeDocCount (joinEvent now eid ua loc conn store).2.2 s' e' ≤ 1 := by
  intro s' e'
  rw [joinEvent_store]
  cases hfind : findActiveDoc conn.socketId eid store with
  | some d => exact h s' e'
  | none =>
    simp only [activeDocCount, filter_append_single]
    rw [newDoc_activePred]
    by_cases hmatch : conn.socketId == s' && eid == e'
    · have hss : conn.socketId = s' := by
        have := hmatch
        simp only [Bool.and_eq_true, beq_iff_eq] at this
        exact this.1
      have hee : eid = e' := by
        have := hmatch
        simp only [Bool.and_eq_true, beq_iff_eq] at this
        exact this.2
      have h0 := activeDocCount_eq_zero_of_none store conn.socketId eid hfind
      unfold activeDocCount at h0
      rw [← hss, ← hee, h0]
      simp
    · rw [Bool.eq_false_iff.mpr hmatch]
      simpa [activeDocCount] using h s' e'

/-- Claim C1: starting a session never yields a second row for a pair — the
flat `start-session` route preserves "at most one row (hence at most one
active row) per (eventId, sessionId)", resuming in place when a row exists;
and the nested `createOrUpdateSession` and socket `join-event` creators
preserve "at most one active document per (sessionId, eventId)", reusing the
active document when one exists. -/
theorem active_session_unique_per_pair
    (events : List EventRec) (store : List CursorLogFlat) (now : ℤ)
    (p : StartParams) (docStore : List CursorLogDoc)
    (sid : String) (uid : Option String) (eid : ℕ)
    (ua loc dev ip : Option String) (conn : ConnEntry)
    (hflat : ∀ e' s', pairCount store e' s' ≤ 1)
    (hdoc : ∀ s' e', activeDocCount docStore s' e' ≤ 1) :
    (∀ e' s', activeCount (startSessionRoute events store now p).2 e' s' ≤ 1) ∧
    (∀ e' s', pairCount (startSessionRoute events store now p).2 e' s' ≤ 1) ∧
    ((store.find? (matchesPair p.eventId p.sessionId)).isSome →
      (startSessionRoute events store now p).2.length = store.length) ∧
    (∀ s' e',
      activeDocCount (createOrUpdateSession now sid uid eid ua loc dev ip docStore).1 s' e' ≤ 1) ∧
    ((findActiveDoc sid eid docStore).isSome →
      (createOrUpdateSession now sid uid eid ua loc dev ip docStore).1.length =
        docStore.length) ∧
    (∀ s' e', activeDocCount (joinEvent now eid ua loc conn docStore).2.2 s' e' ≤ 1) ∧
    ((findActiveDoc conn.socketId eid docStore).isSome →
      (joinEvent now eid ua loc conn docStore).2.2.length = docStore.length) := by
  have hpair : ∀ e' s', pairCount (startSessionRoute events store now p).2 e' s' ≤ 1 := by
    intro e' s'
    unfold startSessionRoute
    cases hev : events.find? (fun e => e.id == p.eventId) with
    | none => exact hflat e' s'
    | some e =>
      by_cases hpub : e.isPublic
      · simp only [hpub, Bool.not_true, Bool.false_eq_true, if_false]
        cases hfind : store.find? (matchesPair p.eventId p.sessionId) with
        | some r =>
          simp only [pairCount]
          rw [replaceFirst_filter_length _ _ _
            (fun a => resumeSession_pair now p e' s' a)]
          exact hflat e' s'
        | none =>
          simp only [pairCount, filter_append_single]
          by_cases hmatch : matchesPair e' s' (newSessionFlat now p)
          · have hep : e' = p.eventId ∧ s' = p.sessionId := by
              have := hmatch
              simp only [matchesPair, newSessionFlat, Bool.and_eq_true, beq_iff_eq] at this
              exact ⟨this.1.symm, this.2.symm⟩
            obtain ⟨he', hs'⟩ := hep
            subst he'; subst hs'
            have h0 := pairCount_eq_zero_of_find?_none store _ _ hfind
            unfold pairCount at h0
            rw [h0, hmatch]
            simp
          · rw [Bool.eq_false_iff.mpr hmatch]
            simpa [pairCount] using hflat e' s'
      · simp only [hpub]
        simpa using hflat e' s'
  refine ⟨?_, hpair, ?_, createOrUpdate_activeDocCount now sid uid eid ua loc dev ip docStore hdoc,
    ?_, joinEvent_activeDocCount now eid ua loc conn docStore hdoc, ?_⟩
  · intro e' s'
    exact le_trans
      (filter_length_le_of_imp _ _ _
        (fun a ha => by
          simp only [matchesActivePair, Bool.and_eq_true] at ha
          simp [matchesPair, ha.1.1, ha.1.2]))
      (hpair e' s')
  · intro hsome
    obtain ⟨r, hr⟩ := Option.isSome_iff_exists.mp hsome
    unfold startSessionRoute
    cases hev : events.find? (fun e => e.id == p.eventId) with
    | none => rfl
    | some e =>
      by_cases hpub : e.isPublic
      · simp only [hpub, Bool.not_true, Bool.false_eq_true, if_false, hr]
        exact replaceFirst_length _ _ _
      · simp only [hpub]
        simp
  · intro hsome
    obtain ⟨d, hd⟩ := Option.isSome_iff_exists.mp hsome
    unfold createOrUpdateSession
    rw [hd]
    exact replaceFirst_length _ _ _
  · intro hsome
    obtain ⟨d, hd⟩ := Option.isSome_iff_exists.mp hsome
    rw [joinEvent_store, hd]

/-- Witness for C1: a store already holding the row (resp. one active
document) for the pair; starting again keeps the store size at one. -/
theorem active_session_unique_per_pair_witness :
    (∀ e' s', pairCount [exActiveRow] e' s' ≤ 1) ∧
    (∀ s' e', activeDocCount [newDoc 0 "s" none 1 none none none none] s' e' ≤ 1) ∧
    (∀ e' s', activeCount (startSessionRoute exEvents [exActiveRow] 5 exParams).2 e' s' ≤ 1) ∧
    (startSessionRoute exEvents [exActiveRow] 5 exParams).2.length = 1 ∧
    (createOrUpdateSession 5 "s" none 1 none none none none
      [newDoc 0 "s" none 1 none none none none]).1.length = 1 := by
  have hflat : ∀ e' s', pairCount [exActiveRow] e' s' ≤ 1 := by
    intro e' s'
    simpa [pairCount] using List.length_filter_le (matchesPair e' s') [exActiveRow]
  have hdoc : ∀ s' e',
      activeDocCount [newDoc 0 "s" none 1 none none none none] s' e' ≤ 1 := by
    intro s' e'
    simpa [activeDocCount] using
      List.length_filter_le (activeDocPred s' e') [newDoc 0 "s" none 1 none none none none]
  have T := active_session_unique_per_pair exEvents [exActiveRow] 5 exParams
      [newDoc 0 "s" none 1 none none none none] "s" none 1 none none none none
      exConnFresh hflat hdoc
  refine ⟨hflat, hdoc, T.1, ?_, ?_⟩
  · have := T.2.2.1 (by decide)
    simpa using this
  · have := T.2.2.2.2.1 (by decide)
    simpa using this

/-! ## Claim C7: single-room membership and leave-before-join ordering -/

theorem joinEvent_conn (now : ℤ) (eid : ℕ) (ua loc : Option String)
    (conn : ConnEntry) (store : List CursorLogDoc) :
    (joinEvent now eid ua loc conn store).2.1 =
      { conn with
        rooms := joinRoom eid (match conn.currentEvent with
          | some prev => conn.rooms.erase prev
          | none => conn.rooms),
        currentEvent := some eid,
        lastActivity := now } := by
  rcases hc : conn.currentEvent with _ | prev <;> simp [joinEvent, hc]

theorem joinEvent_emissions (now : ℤ) (eid : ℕ) (ua loc : Option String)
    (conn : ConnEntry) (store : List CursorLogDoc) :
    (joinEvent now eid ua loc conn store).1 =
      (match conn.currentEvent with
        | some prev =>
          [Emission.toRoomExceptSender conn.socketId prev "user-left" conn.socketId]
        | none => []) ++
      [.toRoomExceptSender conn.socketId eid "user-joined" conn.socketId,
       .toSelf conn.socketId "active-users",
       .toSelf conn.socketId "joined-event"] := by
  rcases hc : conn.currentEvent with _ | prev <;> simp [joinEvent, hc]

/-- Counterexample for C7: connection "a" is already in room 1 with peer
"b"; re-joining room 1 is *not* observationally a no-op — the handler emits
a `user-left` for room 1 followed by a `user-joined`, and peer "b" receives
the departure notice. -/
theorem same_room_rejoin_not_noop :
    (joinEvent 5 1 none none exConnA []).1 =
      [.toRoomExceptSender "a" 1 "user-left" "a",
       .toRoomExceptSender "a" 1 "user-joined" "a",
       .toSelf "a" "active-users",
       .toSelf "a" "joined-event"] ∧
    recipients [exConnA, exConnB]
      (.toRoomExceptSender "a" 1 "user-left" "a") = ["b"] := by
  constructor <;> rfl

/-- Claim C7 (amended): a well-formed connection is never in two rooms —
after any join it is in exactly the one room it joined — and whenever it was
in a room (the same one included), the `user-left` for the old room is
emitted strictly before the `user-joined` for the new room.  Re-joining the
room it is already in is *not* a no-op: peers see `user-left` then
`user-joined`. -/
theorem join_leaves_old_room_first (now : ℤ) (eid : ℕ) (ua loc : Option String)
    (conn : ConnEntry) (store : List CursorLogDoc)
    (h : connWellFormed conn) :
    connWellFormed (joinEvent now eid ua loc conn store).2.1 ∧
    (joinEvent now eid ua loc conn store).2.1.rooms = [eid] ∧
    (joinEvent now eid ua loc conn store).2.1.currentEvent = some eid ∧
    (∀ a, conn.currentEvent = some a →
      (joinEvent now eid ua loc conn store).1 =
        [.toRoomExceptSender conn.socketId a "user-left" conn.socketId,
         .toRoomExceptSender conn.socketId eid "user-joined" conn.socketId,
         .toSelf conn.socketId "active-users",
         .toSelf conn.socketId "joined-event"]) ∧
    (conn.currentEvent = none →
      (joinEvent now eid ua loc conn store).1 =
        [.toRoomExceptSender conn.socketId eid "user-joined" conn.socketId,
         .toSelf conn.socketId "active-users",
         .toSelf conn.socketId "joined-event"]) := by
  have hrooms : conn.rooms = roomsOfOpt conn.currentEvent := h
  have hnew : (joinEvent now eid ua loc conn store).2.1.rooms = [eid] := by
    rw [joinEvent_conn]
    rcases hc : conn.currentEvent with _ | prev
    · rw [hc] at hrooms
      simp [hrooms, roomsOfOpt, joinRoom]
    · rw [hc] at hrooms
      simp [hrooms, roomsOfOpt, joinRoom, List.erase]
  refine ⟨?_, hnew, ?_, ?_, ?_⟩
  · show (joinEvent now eid ua loc conn store).2.1.rooms =
      roomsOfOpt (joinEvent now eid ua loc conn store).2.1.currentEvent
    rw [hnew, joinEvent_conn]
    rfl
  · rw [joinEvent_conn]
  · intro a ha
    rw [joinEvent_emissions, ha]
    rfl
  · intro ha
    rw [joinEvent_emissions, ha]
    rfl

/-- Witness for C7 (amended): the concrete well-formed connection "a" in
room 1 joining room 2. -/
theorem join_leaves_old_room_first_witness :
    connWellFormed exConnA ∧
    (joinEvent 5 2 none none exConnA []).2.1.rooms = [2] ∧
    (joinEvent 5 2 none none exConnA []).1 =
      [.toRoomExceptSender "a" 1 "user-left" "a",
       .toRoomExceptSender "a" 2 "user-joined" "a",
       .toSelf "a" "active-users",
       .toSelf "a" "joined-event"] := by
  have h : connWellFormed exConnA := rfl
  have T := join_leaves_old_room_first 5 2 none none exConnA [] h
  exact ⟨h, T.2.1, T.2.2.2.1 1 rfl⟩

/-! ## Heatmap helper lemmas (shared by C4 and C10) -/

theorem mem_getHeatmapData_iff (docs : List CursorLogDoc) (eid : ℕ)
    (page : Option String) (sd ed : Option ℤ) (b : HeatBucket) :
    b ∈ getHeatmapData docs eid page sd ed ↔
      ∃ k, k ∈ (unwoundClicks docs eid page sd ed).map bucketKey ∧
        b = mkBucket (unwoundClicks docs eid page sd ed) k := by
  unfold getHeatmapData
  rw [List.mem_insertionSort, List.mem_map]
  constructor
  · rintro ⟨k, hk, rfl⟩
    exact ⟨k, List.mem_dedup.mp hk, rfl⟩
  · rintro ⟨k, hk, rfl⟩
    exact ⟨k, List.mem_dedup.mpr hk, rfl⟩

theorem bucket_of_click_mem (docs : List CursorLogDoc) (eid : ℕ)
    (page : Option String) (sd ed : Option ℤ) (c : HeatClick)
    (hc : c ∈ unwoundClicks docs eid page sd ed) :
    mkBucket (unwoundClicks docs eid page sd ed) (bucketKey c) ∈
      getHeatmapData docs eid page sd ed := by
  rw [mem_getHeatmapData_iff]
  exact ⟨bucketKey c, List.mem_map_of_mem _ hc, rfl⟩

theorem mem_unwoundClicks_iff (docs : List CursorLogDoc) (eid : ℕ)
    (p : String) (sd ed : Option ℤ) (c : HeatClick) :
    c ∈ unwoundClicks docs eid (some p) sd ed ↔
      ∃ d, d ∈ docs ∧ d.eventId = eid ∧ d.isDeleted = false ∧
        inDateRange sd ed d.createdAt = true ∧
        (∃ c', c' ∈ d.heatClicks ∧ c'.page = p) ∧ c ∈ d.heatClicks := by
  unfold unwoundClicks
  rw [List.mem_flatten]
  constructor
  · rintro ⟨l, hl, hc⟩
    rw [List.mem_map] at hl
    obtain ⟨d, hd, rfl⟩ := hl
    rw [List.mem_filter] at hd
    obtain ⟨hdocs, hmatch⟩ := hd
    simp only [heatmapMatch, Bool.and_eq_true, beq_iff_eq, List.any_eq_true,
      Bool.not_eq_true'] at hmatch
    exact ⟨d, hdocs, hmatch.1.1.1, hmatch.1.1.2,
      hmatch.2, hmatch.1.2, hc⟩
  · rintro ⟨d, hdocs, he, hdel, hdate, ⟨c', hc', hp⟩, hc⟩
    refine ⟨d.heatClicks, ?_, hc⟩
    rw [List.mem_map]
    refine ⟨d, ?_, rfl⟩
    rw [List.mem_filter]
    refine ⟨hdocs, ?_⟩
    simp only [heatmapMatch, Bool.and_eq_true, beq_iff_eq, List.any_eq_true,
      Bool.not_eq_true']
    exact ⟨⟨⟨he, hdel⟩, ⟨c', hc', by simp [hp]⟩⟩, hdate⟩

/-! ## Claim C10: the page filter selects whole sessions -/

/-- Claim C10: the heatmap's page filter is a *session-level* element match —
a click is bucketed iff it belongs to some matching session that has at least
one click on the requested page (then *all* of that session's clicks are
bucketed, whatever their page), and sessions with no click on the page
contribute nothing.  Concretely, filtering for page "a" can return a bucket
for page "b". -/
theorem heatmap_page_filter_selects_sessions
    (docs : List CursorLogDoc) (eid : ℕ) (p : String) (sd ed : Option ℤ) :
    (∀ c : HeatClick,
      c ∈ unwoundClicks docs eid (some p) sd ed ↔
        ∃ d, d ∈ docs ∧ d.eventId = eid ∧ d.isDeleted = false ∧
          inDateRange sd ed d.createdAt = true ∧
          (∃ c', c' ∈ d.heatClicks ∧ c'.page = p) ∧ c ∈ d.heatClicks) ∧
    (∃ b, b ∈ getHeatmapData [exDocCross] 1 (some "a") none none ∧ b.page = "b") := by
  refine ⟨fun c => mem_unwoundClicks_iff docs eid p sd ed c, ?_⟩
  have hc : (⟨205, 205, "b", 0⟩ : HeatClick) ∈
      unwoundClicks [exDocCross] 1 (some "a") none none := by
    rw [mem_unwoundClicks_iff]
    refine ⟨exDocCross, by simp, rfl, rfl, rfl, ⟨⟨5, 5, "a", 0⟩, by simp [exDocCross, newDoc], rfl⟩,
      by simp [exDocCross, newDoc]⟩
  exact ⟨mkBucket (unwoundClicks [exDocCross] 1 (some "a") none none)
      (bucketKey ⟨205, 205, "b", 0⟩),
    bucket_of_click_mem [exDocCross] 1 (some "a") none none _ hc, rfl⟩

/-- Witness for C10: instantiating the characterization at the concrete
cross-page store and click. -/
theorem heatmap_page_filter_selects_sessions_witness :
    ((⟨205, 205, "b", 0⟩ : HeatClick) ∈
      unwoundClicks [exDocCross] 1 (some "a") none none) ∧
    (∃ b, b ∈ getHeatmapData [exDocCross] 1 (some "a") none none ∧ b.page = "b") := by
  have T := heatmap_page_filter_selects_sessions [exDocCross] 1 "a" none none
  refine ⟨(T.1 ⟨205, 205, "b", 0⟩).mpr ?_, T.2⟩
  exact ⟨exDocCross, by simp, rfl, rfl, rfl,
    ⟨⟨5, 5, "a", 0⟩, by simp [exDocCross, newDoc], rfl⟩, by simp [exDocCross, newDoc]⟩

/-! ## Claim C4: heatmap bucketing -/

theorem heatmap_worked_example :
    getHeatmapData [exDocPair] 1 none none none =
      [{ idx := 1, idy := 1, page := "p", count := 2, avgX := 13, avgY := 37/2 }] := by
  have hk1 : bucketKey ⟨12, 18, "p", 0⟩ = (1, 1, "p") := by
    norm_num [bucketKey, Prod.ext_iff]
  have hk2 : bucketKey ⟨14, 19, "p", 0⟩ = (1, 1, "p") := by
    norm_num [bucketKey, Prod.ext_iff]
  have hcs : unwoundClicks [exDocPair] 1 none none none =
      [⟨12, 18, "p", 0⟩, ⟨14, 19, "p", 0⟩] := rfl
  have hfil : ([⟨12, 18, "p", 0⟩, ⟨14, 19, "p", 0⟩] : List HeatClick).filter
      (fun c => bucketKey c == ((1 : ℤ), (1 : ℤ), "p")) =
      [⟨12, 18, "p", 0⟩, ⟨14, 19, "p", 0⟩] := by
    rw [List.filter_cons_of_pos (by rw [hk1]; rfl),
      List.filter_cons_of_pos (by rw [hk2]; rfl)]
    rfl
  simp only [getHeatmapData, hcs, List.map_cons, List.map_nil, hk1, hk2]
  rw [show (((1 : ℤ), (1 : ℤ), "p") :: [((1 : ℤ), (1 : ℤ), "p")]).dedup =
      [((1 : ℤ), (1 : ℤ), "p")] from by decide]
  simp only [List.map_cons, List.map_nil, List.insertionSort, List.orderedInsert]
  unfold mkBucket
  rw [hfil]
  simp only [HeatBucket.mk.injEq, List.map_cons, List.map_nil, List.length_cons,
    List.length_nil, List.cons.injEq, and_true]
  norm_num

/-- Counterexample for C4: (i) with requested resolution 20, a click at
(12, 18) is still bucketed by the hard-coded divisor 10 — the aggregation
yields the single group key (1, 1), not the claim's
`(floor(12/20), floor(18/20)) = (0, 0)`; (ii) even at the default
resolution with *no* page filter, two clicks at identical coordinates on
two different pages land in two distinct buckets, because the group key
always includes the page. -/
theorem heatmap_resolution_counterexample :
    (getHeatmapData [exDocA] 1 none none none).map (fun b => (b.idx, b.idy)) =
      [(1, 1)] ∧
    specBucketOfClick 20 ⟨12, 18, "p", 0⟩ = (0, 0) ∧
    ((1 : ℤ), (1 : ℤ)) ≠ ((0 : ℤ), (0 : ℤ)) ∧
    (getHeatmapData [exDocTwoPages] 1 none none none).length = 2 := by
  refine ⟨?_, ?_, by decide, ?_⟩
  · have hk : bucketKey ⟨12, 18, "p", 0⟩ = (1, 1, "p") := by
      norm_num [bucketKey, Prod.ext_iff]
    have hcs : unwoundClicks [exDocA] 1 none none none = [⟨12, 18, "p", 0⟩] := rfl
    simp only [getHeatmapData, hcs, List.map_cons, List.map_nil, hk]
    rw [show ([((1 : ℤ), (1 : ℤ), "p")]).dedup = [((1 : ℤ), (1 : ℤ), "p")] from by decide]
    simp only [List.map_cons, List.map_nil, List.insertionSort, List.orderedInsert]
    rfl
  · norm_num [specBucketOfClick, Prod.ext_iff]
  · have hk1 : bucketKey ⟨12, 18, "p1", 0⟩ = (1, 1, "p1") := by
      norm_num [bucketKey, Prod.ext_iff]
    have hk2 : bucketKey ⟨12, 18, "p2", 0⟩ = (1, 1, "p2") := by
      norm_num [bucketKey, Prod.ext_iff]
    have hcs : unwoundClicks [exDocTwoPages] 1 none none none =
        [⟨12, 18, "p1", 0⟩, ⟨12, 18, "p2", 0⟩] := rfl
    simp only [getHeatmapData, hcs, List.map_cons, List.map_nil, hk1, hk2]
    rw [(List.perm_insertionSort countGE _).length_eq, List.length_map]
    decide

/-- Claim C4 (amended): the aggregation buckets every unwound click by the
*hard-coded* 10-pixel grid `(floor(x/10), floor(y/10))` together with the
click's page (the page is always part of the group key, filter or not); each
bucket reports the count and the centroid (mean x, mean y) of exactly the
clicks with its key; buckets are sorted by count descending; the requested
`resolution` only rescales the reported grid coordinates in the route's
post-processing; and the spec's worked example — clicks (12, 18) and
(14, 19) at resolution 10 — gives the single bucket (1, 1) with centroid
(13, 18.5). -/
theorem heatmap_buckets_hardcoded_grid
    (docs : List CursorLogDoc) (eid : ℕ) (page : Option String)
    (sd ed : Option ℤ) (reso : ℤ) :
    (∀ b ∈ getHeatmapData docs eid page sd ed,
      b = mkBucket (unwoundClicks docs eid page sd ed) (b.idx, b.idy, b.page)) ∧
    (∀ c ∈ unwoundClicks docs eid page sd ed,
      ∃ b ∈ getHeatmapData docs eid page sd ed,
        b.idx = ⌊c.x / 10⌋ ∧ b.idy = ⌊c.y / 10⌋ ∧ b.page = c.page) ∧
    List.Sorted countGE (getHeatmapData docs eid page sd ed) ∧
    (getHeatmapRoute docs eid page sd ed reso =
      (getHeatmapData docs eid page sd ed).map fun b =>
        { x := b.avgX, y := b.avgY, value := b.count, page := b.page,
          gridX := b.idx * reso, gridY := b.idy * reso }) ∧
    getHeatmapData [exDocPair] 1 none none none =
      [{ idx := 1, idy := 1, page := "p", count := 2, avgX := 13, avgY := 37/2 }] := by
  refine ⟨?_, ?_, List.sorted_insertionSort countGE _, rfl, heatmap_worked_example⟩
  · intro b hb
    obtain ⟨k, hk, rfl⟩ := (mem_getHeatmapData_iff docs eid page sd ed b).mp hb
    rfl
  · intro c hc
    exact ⟨mkBucket (unwoundClicks docs eid page sd ed) (bucketKey c),
      bucket_of_click_mem docs eid page sd ed c hc, rfl, rfl, rfl⟩

/-- Witness for C4 (amended): instantiating the bucket-membership part at the
worked example's first click. -/
theorem heatmap_buckets_hardcoded_grid_witness :
    ((⟨12, 18, "p", 0⟩ : HeatClick) ∈ unwoundClicks [exDocPair] 1 none none none) ∧
    (∃ b ∈ getHeatmapData [exDocPair] 1 none none none,
      b.idx = ⌊(12 : ℚ) / 10⌋ ∧ b.idy = ⌊(18 : ℚ) / 10⌋ ∧ b.page = "p") ∧
    getHeatmapData [exDocPair] 1 none none none =
      [{ idx := 1, idy := 1, page := "p", count := 2, avgX := 13, avgY := 37/2 }] := by
  have T := heatmap_buckets_hardcoded_grid [exDocPair] 1 none none none 10
  have hc : (⟨12, 18, "p", 0⟩ : HeatClick) ∈ unwoundClicks [exDocPair] 1 none none none := by
    simp [unwoundClicks, exDocPair, newDoc, heatmapMatch, inDateRange]
  exact ⟨hc, T.2.1 ⟨12, 18, "p", 0⟩ hc, T.2.2.2.2⟩

/-! ## Claim C8: the cleanup sweep treats a stale connection like a disconnect -/

theorem sweepList_of_fresh (now : ℤ) (cs : List ConnEntry) (st : SocketState)
    (h : ∀ c ∈ cs, isStale now c = false) :
    sweepList now cs st = ([], st) := by
  induction cs generalizing st with
  | nil => rfl
  | cons c cs ih =>
    have hc : isStale now c = false := h c (by simp)
    simp only [sweepList, sweepOne, hc, Bool.false_eq_true, if_false]
    rw [ih st (fun x hx => h x (by simp [hx]))]
    rfl

theorem sweepList_append (now : ℤ) (as bs : List ConnEntry) (st : SocketState) :
    sweepList now (as ++ bs) st =
      ((sweepList now as st).1 ++ (sweepList now bs (sweepList now as st).2).1,
       (sweepList now bs (sweepList now as st).2).2) := by
  induction as generalizing st with
  | nil => simp [sweepList]
  | cons a as ih =>
    have hcons : ∀ (cs : List ConnEntry) (st' : SocketState),
        sweepList now (a :: cs) st' =
          ((sweepOne now a st').1 ++ (sweepList now cs (sweepOne now a st').2).1,
           (sweepList now cs (sweepOne now a st').2).2) := fun cs st' => rfl
    rw [List.cons_append, hcons, hcons, ih]
    simp [List.append_assoc]

theorem endSession_doc_not_active (now : ℤ) (sid : String) (eid : ℕ)
    (d : CursorLogDoc) :
    activeDocPred sid eid (CursorLogDoc.endSession now d) = false := by
  simp [activeDocPred, CursorLogDoc.endSession]

theorem closeActiveDoc_closes (now : ℤ) (sid : String) (eid : ℕ)
    (store : List CursorLogDoc) (hcount : activeDocCount store sid eid ≤ 1) :
    findActiveDoc sid eid (closeActiveDoc now sid eid store) = none := by
  unfold closeActiveDoc
  cases hfind : findActiveDoc sid eid store with
  | none => simp [hfind]
  | some d =>
    rw [if_pos (by rfl)]
    exact find?_replaceFirst_none _ _
      (fun a => endSession_doc_not_active now sid eid a) _ hcount

/-- Claim C8: when exactly the entry for `sid` is stale (its `lastActivity`
is more than 5 minutes old) and every other registry entry is fresh, the next
cleanup sweep produces exactly the registry and store an explicit disconnect
of `sid` would produce: the entry is removed, the pair's SessionLog is closed
(no active document remains), the room's member count drops by one, and every
peer in the room receives the `user-left` notification (the sweep's `io.to`
reaches all members, the disconnect's `socket.to` all but the sender). -/
theorem cleanup_sweep_like_disconnect (now : ℤ) (st : SocketState)
    (sid : String) (eid : ℕ) (pre post : List ConnEntry) (c0 : ConnEntry)
    (hsplit : st.conns = pre ++ c0 :: post)
    (hsid : c0.socketId = sid)
    (hev : c0.currentEvent = some eid)
    (hstale : isStale now c0 = true)
    (hfresh : ∀ c ∈ pre ++ post, isStale now c = false)
    (hnodup : (st.conns.map (·.socketId)).Nodup)
    (hcount : activeDocCount st.store sid eid ≤ 1) :
    cleanupSweep now st =
      ([.toRoomAll eid "user-left" sid], (disconnect now sid st).2) ∧
    (disconnect now sid st).1 = [.toRoomExceptSender sid eid "user-left" sid] ∧
    (disconnect now sid st).2.conns = st.conns.filter (fun c => c.socketId != sid) ∧
    (disconnect now sid st).2.store = closeActiveDoc now sid eid st.store ∧
    findActiveDoc sid eid (disconnect now sid st).2.store = none ∧
    roomCount (disconnect now sid st).2.conns eid + 1 = roomCount st.conns eid ∧
    (∀ c ∈ st.conns, c.rooms.contains eid = true → c.socketId ≠ sid →
      c.socketId ∈ recipients st.conns (Emission.toRoomAll eid "user-left" sid) ∧
      c.socketId ∈ recipients st.conns
        (Emission.toRoomExceptSender sid eid "user-left" sid)) := by
  subst hsid
  have hpre : ∀ c ∈ pre, c.socketId ≠ c0.socketId := by
    intro c hc heq
    rw [hsplit] at hnodup
    rw [List.map_append, List.nodup_append] at hnodup
    exact hnodup.2.2 (List.mem_map_of_mem _ hc) (by simp [heq])
  have hpost : ∀ c ∈ post, c.socketId ≠ c0.socketId := by
    intro c hc heq
    rw [hsplit] at hnodup
    rw [List.map_append, List.map_cons] at hnodup
    have := (List.nodup_append.mp hnodup).2.1
    rw [List.nodup_cons] at this
    exact this.1 (by rw [← heq]; exact List.mem_map_of_mem _ hc)
  have hfind : st.conns.find? (fun c => c.socketId == c0.socketId) = some c0 := by
    rw [hsplit, find?_append_of_none _ _ _
      (fun c hc => by simp [hpre c hc])]
    simp [List.find?]
  have hdis : disconnect now c0.socketId st =
      ([.toRoomExceptSender c0.socketId eid "user-left" c0.socketId],
       { conns := st.conns.filter (fun c => c.socketId != c0.socketId),
         store := closeActiveDoc now c0.socketId eid st.store }) := by
    unfold disconnect
    rw [hfind]
    dsimp only
    rw [hev]
  have hclean : cleanupSweep now st =
      ([.toRoomAll eid "user-left" c0.socketId],
       { conns := st.conns.filter (fun c => c.socketId != c0.socketId),
         store := closeActiveDoc now c0.socketId eid st.store }) := by
    unfold cleanupSweep
    conv_lhs => rw [hsplit]
    rw [sweepList_append, sweepList_of_fresh now pre st
      (fun c hc => hfresh c (by simp [hc]))]
    simp only [sweepList, sweepOne, hstale, if_true, hev]
    rw [sweepList_of_fresh now post _
      (fun c hc => hfresh c (by simp [hc]))]
    simp
  have hfilter : st.conns.filter (fun c => c.socketId != c0.socketId) = pre ++ post := by
    rw [hsplit, List.filter_append, List.filter_cons]
    simp only [bne_self_eq_false, Bool.false_eq_true, if_false]
    rw [List.filter_eq_self.mpr (fun c hc => by simp [hpre c hc]),
      List.filter_eq_self.mpr (fun c hc => by simp [hpost c hc])]
  refine ⟨?_, ?_, ?_, ?_, ?_, ?_, ?_⟩
  · rw [hclean, hdis]
  · rw [hdis]
  · rw [hdis]
  · rw [hdis]
  · rw [hdis]
    exact closeActiveDoc_closes now c0.socketId eid st.store hcount
  · rw [hdis]
    show roomCount (st.conns.filter (fun c => c.socketId != c0.socketId)) eid + 1 =
      roomCount st.conns eid
    rw [hfilter, hsplit]
    unfold roomCount
    rw [List.filter_append, List.filter_append, List.filter_cons]
    simp only [hev, beq_self_eq_true, if_true, List.length_append, List.length_cons]
    omega
  · intro c hc hroom hne
    constructor
    · show c.socketId ∈ (st.conns.filter (fun x => x.rooms.contains eid)).map (·.socketId)
      exact List.mem_map_of_mem _ (List.mem_filter.mpr ⟨hc, by simpa using hroom⟩)
    · show c.socketId ∈
        (st.conns.filter (fun x => x.rooms.contains eid && x.socketId != c0.socketId)).map (·.socketId)
      exact List.mem_map_of_mem _ (List.mem_filter.mpr ⟨hc, by
        simp only [Bool.and_eq_true, bne_iff_ne, ne_eq]
        exact ⟨by simpa using hroom, hne⟩⟩)

/-- Witness for C8: connection "a" silent since t = 0 is, at t = 400000
(past the 5-minute threshold), swept into exactly the state an explicit
disconnect would produce, with its SessionLog closed and room 1's member
count falling from 2 to 1. -/
theorem cleanup_sweep_like_disconnect_witness :
    isStale 400000 exConnA = true ∧
    cleanupSweep 400000 exStaleState =
      ([.toRoomAll 1 "user-left" "a"], (disconnect 400000 "a" exStaleState).2) ∧
    findActiveDoc "a" 1 (disconnect 400000 "a" exStaleState).2.store = none ∧
    roomCount (disconnect 400000 "a" exStaleState).2.conns 1 + 1 =
      roomCount exStaleState.conns 1 := by
  have T := cleanup_sweep_like_disconnect 400000 exStaleState "a" 1 [] [exConnB] exConnA
    rfl rfl rfl (by decide) (by decide) (by decide) (by decide)
  exact ⟨by decide, T.1, T.2.2.2.2.1, T.2.2.2.2.2.1⟩
